import Mathlib

/-!
Verification of the historical-data retrieval engine of the OilpriceAPI
python SDK (`oilpriceapi/resources/historical.py`), shallowly embedded in
Lean 4.  JSON values are modelled by an inductive type, Python `None` by
the JSON null value (as produced by `json` parsing), Python exceptions by
`Except String`, calendar dates by their ordinal day number (`Int`), and
the external ISO date parser/printer (`datetime.fromisoformat` /
`date.isoformat`) by function parameters.
-/

/-- A JSON value as Python's `json` module produces it (`None` ↦ `jnull`). -/
inductive JVal where
  | jnull : JVal
  | jbool : Bool → JVal
  | jnum : Rat → JVal
  | jstr : String → JVal
  | jarr : List JVal → JVal
  | jobj : List (String × JVal) → JVal

/-- Is this value a Python dict? -/
def JVal.isObj : JVal → Bool
  | .jobj _ => true
  | _ => false

/-- Is this value the Python `None` / JSON null? -/
def JVal.isNull : JVal → Bool
  | .jnull => true
  | _ => false

/-- Does this value equal the Python string `s` (under Python `==`)?
Only another string can compare equal to a string. -/
def JVal.isStrVal (v : JVal) (s : String) : Bool :=
  match v with
  | .jstr t => t == s
  | _ => false

/-- First binding of `key` in an association list (Python dicts have unique
keys, so first-match lookup models dict lookup). -/
def lookupField : List (String × JVal) → String → Option JVal
  | [], _ => none
  | (k, v) :: rest, key => if k == key then some v else lookupField rest key

/-- Python `d.get(key, default)` on a dict. -/
def pyDictGetD (fields : List (String × JVal)) (key : String) (dflt : JVal) : JVal :=
  match lookupField fields key with
  | some v => v
  | none => dflt

/-- Python `d.get(key)` on a dict: `None` (here `jnull`) when absent. -/
def pyDictGet (fields : List (String × JVal)) (key : String) : JVal :=
  pyDictGetD fields key .jnull

/-- Does the string `s` contain `pat` as a substring (Python `pat in s`)? -/
def strContainsSub (s pat : String) : Bool :=
  if pat == "" then true else decide (2 ≤ (s.splitOn pat).length)

/-- Python `key in v` for a string key: key membership on dicts, element
membership on lists, substring test on strings, `TypeError` otherwise. -/
def pyContains (v : JVal) (key : String) : Except String Bool :=
  match v with
  | .jobj fields => .ok (fields.any fun kv => kv.1 == key)
  | .jarr elems => .ok (elems.any fun x => x.isStrVal key)
  | .jstr s => .ok (strContainsSub s key)
  | _ => .error "TypeError: argument is not iterable"

/-- Python `v[key]` for a string key: dict lookup (`KeyError` when absent),
`TypeError` on lists, strings and non-subscriptable values. -/
def pySubscript (v : JVal) (key : String) : Except String JVal :=
  match v with
  | .jobj fields =>
    match lookupField fields key with
    | some x => .ok x
    | none => .error ("KeyError: " ++ key)
  | .jarr _ => .error "TypeError: list indices must be integers"
  | .jstr _ => .error "TypeError: string indices must be integers"
  | _ => .error "TypeError: object is not subscriptable"

/-- Python `for x in v`: lists yield their elements, dicts their keys,
strings their characters; other values raise `TypeError`. -/
def pyIterate : JVal → Except String (List JVal)
  | .jarr xs => .ok xs
  | .jobj fields => .ok (fields.map fun kv => .jstr kv.1)
  | .jstr s => .ok (s.toList.map fun c => .jstr (String.mk [c]))
  | _ => .error "TypeError: object is not iterable"

/-- A caller-supplied date bound: an ISO string, a `datetime.date`, or a
`datetime.datetime` (whose `.date()` is the carried day number). -/
inductive DateInput where
  | str : String → DateInput
  | date : Int → DateInput
  | datetime : Int → DateInput

/-- Python truthiness of an optional date bound (`if start_date:`):
`None` and the empty string are falsy; date objects are always truthy. -/
def truthyOpt : Option DateInput → Bool
  | none => false
  | some (.str s) => !(s == "")
  | some (.date _) => true
  | some (.datetime _) => true

/-- `HistoricalResource._parse_date`: strings go through the ISO parser
`p` (`datetime.fromisoformat(...).date()`, raising `ValueError` when
unparseable); `date`/`datetime` inputs yield their day number. -/
def parse_date (p : String → Option Int) : DateInput → Except String Int
  | .str s =>
    match p s with
    | some d => .ok d
    | none => .error ("Invalid isoformat string: " ++ s)
  | .date d => .ok d
  | .datetime d => .ok d

/-- `HistoricalResource._format_date`: strings are returned unchanged
(no validation); `date`/`datetime` inputs are rendered by the ISO printer
`fmt` (`isoformat()`). -/
def format_date (fmt : Int → String) : DateInput → String
  | .str s => s
  | .date d => fmt d
  | .datetime d => fmt d

/-- `HistoricalResource._get_optimal_endpoint`: with both bounds truthy,
parse them and pick the endpoint by `days = end - start`; otherwise the
year endpoint. -/
def get_optimal_endpoint (p : String → Option Int) (start_date end_date : Option DateInput) :
    Except String String :=
  match start_date, end_date with
  | some sd, some ed =>
    if truthyOpt (some sd) && truthyOpt (some ed) then do
      let s ← parse_date p sd
      let e ← parse_date p ed
      let days := e - s
      if days ≤ 1 then pure "/v1/prices/past_day"
      else if days ≤ 7 then pure "/v1/prices/past_week"
      else if days ≤ 30 then pure "/v1/prices/past_month"
      else pure "/v1/prices/past_year"
    else pure "/v1/prices/past_year"
  | _, _ => pure "/v1/prices/past_year"

/-- `HistoricalResource._calculate_timeout`: a caller override is returned
unchanged; with a bound missing (falsy) the result is 120; otherwise the
tier is selected by `days = end - start`. -/
def calculate_timeout (p : String → Option Int) (start_date end_date : Option DateInput)
    (custom_timeout : Option Rat) : Except String Rat :=
  match custom_timeout with
  | some t => pure t
  | none =>
    match start_date, end_date with
    | some sd, some ed =>
      if truthyOpt (some sd) && truthyOpt (some ed) then do
        let s ← parse_date p sd
        let e ← parse_date p ed
        let days := e - s
        if days ≤ 7 then pure 30
        else if days ≤ 30 then pure 60
        else pure 120
      else pure 120
    | _, _ => pure 120

/-- The normalized price record, with fields exactly as the `mapped_data`
dict of `HistoricalResource.get` passes them to the model constructor. -/
structure HistoricalPrice where
  created_at : JVal
  commodity_name : JVal
  price : JVal
  unit_of_measure : JVal
  type_name : JVal

/-- Modelled from the spec: the `HistoricalPrice` pydantic constructor
(the repository's `models.py` is absent from the sources).  Per the spec,
absence of the timestamp (`created_at`) or of the price is a construction
error for that record; all field values are otherwise stored as given
(defaults were already filled in by the caller). -/
def mkHistoricalPrice (created_at commodity_name price unit_of_measure type_name : JVal) :
    Option HistoricalPrice :=
  if created_at.isNull || price.isNull then none
  else some ⟨created_at, commodity_name, price, unit_of_measure, type_name⟩

/-- The `mapped_data` construction of `HistoricalResource.get` for one raw
dict record: field renaming with `code` preferred over `commodity_name`
and the `unit`/`type` defaults, fed to the model constructor. -/
def mapRecord (fields : List (String × JVal)) : Option HistoricalPrice :=
  mkHistoricalPrice
    (pyDictGet fields "created_at")
    (pyDictGetD fields "code" (pyDictGet fields "commodity_name"))
    (pyDictGet fields "price")
    (pyDictGetD fields "unit" (.jstr "barrel"))
    (pyDictGetD fields "type" (.jstr "spot_price"))

/-- The response-shape dispatch of `HistoricalResource.get` (lines
178-185): nested `data.prices`, `data` as a list, a bare top-level list,
or the empty fallback, with Python's `in` / subscript errors preserved. -/
def extractPricesData (response : JVal) : Except String JVal := do
  let hasData ← pyContains response "data"
  if hasData then do
    let d ← pySubscript response "data"
    match d with
    | .jobj dfields =>
      if dfields.any (fun kv => kv.1 == "prices") then
        pySubscript d "prices"
      else
        pure (match response with | .jarr _ => response | _ => .jarr [])
    | .jarr _ => pure d
    | _ => pure (match response with | .jarr _ => response | _ => .jarr [])
  else
    pure (match response with | .jarr _ => response | _ => .jarr [])

/-- The record-building loop of `HistoricalResource.get` (lines 187-199):
non-dict entries are skipped; dict entries are mapped and passed to the
model constructor, whose failure propagates as an exception. -/
def normalizePrices (prices_data : JVal) : Except String (List HistoricalPrice) := do
  let items ← pyIterate prices_data
  items.foldlM
    (fun acc item =>
      match item with
      | .jobj fields =>
        match mapRecord fields with
        | some p => pure (acc ++ [p])
        | none => Except.error "ValidationError: created_at and price are required"
      | _ => pure acc)
    []

/-- The pagination metadata model (field types as exercised by the
repository's tests). -/
structure PaginationMeta where
  page : Int
  per_page : Int
  total : Int
  total_pages : Int
  has_next : Bool
  has_prev : Bool
deriving DecidableEq

/-- Modelled from the spec: integer field validation of the
`PaginationMeta` pydantic model (`models.py` is absent from the sources).
An integral JSON number is accepted; anything else is a validation
error. -/
def jvalToInt : JVal → Except String Int
  | .jnum q => if q.den = 1 then .ok q.num else .error "ValidationError: integer required"
  | _ => .error "ValidationError: integer required"

/-- Modelled from the spec: boolean field validation of the
`PaginationMeta` pydantic model (`models.py` is absent from the
sources). -/
def jvalToBool : JVal → Except String Bool
  | .jbool b => .ok b
  | _ => .error "ValidationError: boolean required"

/-- The synthesized metadata of `HistoricalResource.get` (lines 213-222),
built when the response carries no `meta` block. -/
def synthMeta (page per_page : Int) (nprices : Nat) : PaginationMeta :=
  { page := page
    per_page := per_page
    total := nprices
    total_pages := 1
    has_next := decide ((nprices : Int) = per_page)
    has_prev := decide (page > 1) }

/-- The `meta`-block mapping of `HistoricalResource.get` (lines 203-212):
each field read with `meta_data.get`, falling back to the request's
`page`/`per_page`, the record count, `1`, and `False`. -/
def metaFromBlock (mf : List (String × JVal)) (page per_page : Int) (nprices : Nat) :
    Except String PaginationMeta := do
  let pg ← jvalToInt (pyDictGetD mf "page" (.jnum page))
  let pp ← jvalToInt (pyDictGetD mf "per_page" (.jnum per_page))
  let tot ← jvalToInt (pyDictGetD mf "total" (.jnum nprices))
  let tp ← jvalToInt (pyDictGetD mf "total_pages" (.jnum 1))
  let hn ← jvalToBool (pyDictGetD mf "has_next" (.jbool false))
  let hp ← jvalToBool (pyDictGetD mf "has_prev" (.jbool false))
  pure ⟨pg, pp, tot, tp, hn, hp⟩

/-- The return value of a single-page fetch. -/
structure HistoricalResponse where
  success : Bool
  data : List HistoricalPrice
  meta : Option PaginationMeta

/-- The response-processing phase of `HistoricalResource.get` (lines
178-228): shape dispatch, record normalization, metadata (from the `meta`
block if present, synthesized otherwise), and the final
`HistoricalResponse` with `success=True`. -/
def getResp (response : JVal) (page per_page : Int) : Except String HistoricalResponse := do
  let pd ← extractPricesData response
  let prices ← normalizePrices pd
  let hasMeta ← pyContains response "meta"
  let meta ←
    if hasMeta then do
      let md ← pySubscript response "meta"
      match md with
      | .jobj mf => metaFromBlock mf page per_page prices.length
      | _ => Except.error "AttributeError: object has no attribute get"
    else
      pure (synthMeta page per_page prices.length)
  pure ⟨true, prices, some meta⟩

/-- The HTTP request assembled by `HistoricalResource.get` before the
transport call: endpoint path, pagination parameters (`per_page` capped at
1000), optional formatted date bounds, and the computed timeout. -/
structure Request where
  path : String
  page : Int
  per_page : Int
  start_param : Option String
  end_param : Option String
  timeout : Rat
deriving DecidableEq

/-- The pre-network phase of `HistoricalResource.get` (lines 148-176):
date formatting of truthy bounds, endpoint selection, timeout
computation.  An error here is raised before the transport is invoked. -/
def get_request (p : String → Option Int) (fmt : Int → String)
    (start_date end_date : Option DateInput) (page per_page : Int)
    (custom_timeout : Option Rat) : Except String Request := do
  let sp := match start_date with
    | some sd => if truthyOpt (some sd) then some (format_date fmt sd) else none
    | none => none
  let ep := match end_date with
    | some ed => if truthyOpt (some ed) then some (format_date fmt ed) else none
    | none => none
  let endp ← get_optimal_endpoint p start_date end_date
  let t ← calculate_timeout p start_date end_date custom_timeout
  pure ⟨endp, page, min per_page 1000, sp, ep, t⟩

/-- `HistoricalResource.get` in full, with the HTTP transport abstracted
as a function from the assembled request to the raw JSON response. -/
def HistoricalResource.get (p : String → Option Int) (fmt : Int → String) (transport : Request → JVal)
    (start_date end_date : Option DateInput) (page per_page : Int)
    (custom_timeout : Option Rat) : Except String HistoricalResponse := do
  let req ← get_request p fmt start_date end_date page per_page custom_timeout
  getResp (transport req) page per_page

/-- The loop-continuation condition shared by `get_all` and `iter_pages`
(`if not response.meta or not response.meta.has_next: break`): paging
continues exactly when metadata is present with `has_next` true. -/
def continuesPaging (r : HistoricalResponse) : Bool :=
  match r.meta with
  | some m => m.has_next
  | none => false

/-- The `while True` loop of `HistoricalResource.get_all` (lines 258-279)
over an abstract single-page fetch, with fuel to express the unbounded
loop: accumulates every page's records and the list of visited page
numbers (in fetch order); `none` when the fuel runs out before
termination. -/
def getAllAux (fetch : Nat → HistoricalResponse) :
    Nat → Nat → Option (List HistoricalPrice × List Nat)
  | 0, _ => none
  | fuel + 1, page =>
    if continuesPaging (fetch page) then
      match getAllAux fetch fuel (page + 1) with
      | some (rest, pages) => some ((fetch page).data ++ rest, page :: pages)
      | none => none
    else
      some ((fetch page).data, [page])

/-- The full run of the `HistoricalResource.iter_pages` generator (lines
310-329) over an abstract single-page fetch: the list of yielded batches
(a page is yielded only when its record list is non-empty) together with
the number of fetch calls performed. -/
def iterPagesAux (fetch : Nat → HistoricalResponse) :
    Nat → Nat → Option (List (List HistoricalPrice) × Nat)
  | 0, _ => none
  | fuel + 1, page =>
    if continuesPaging (fetch page) then
      match iterPagesAux fetch fuel (page + 1) with
      | some (batches, n) =>
        some ((if (fetch page).data.isEmpty then batches
               else (fetch page).data :: batches), n + 1)
      | none => none
    else
      some ((if (fetch page).data.isEmpty then [] else [(fetch page).data]), 1)

/-- Outcome of driving the `iter_pages` generator up to its first yield:
either a first batch was yielded (after the given number of fetch calls)
or the generator finished without yielding. -/
inductive FirstStep where
  | yielded : List HistoricalPrice → Nat → FirstStep
  | finished : Nat → FirstStep

/-- The `iter_pages` generator body run lazily from `page` until its first
`yield` (or termination), counting fetch calls: the generator fetches a
page, yields it if non-empty, and otherwise advances only when
`has_next` allows.  No fetch beyond the first yielded page is ever
performed by this first resume. -/
def firstResume (fetch : Nat → HistoricalResponse) :
    Nat → Nat → Nat → Option FirstStep
  | 0, _, _ => none
  | fuel + 1, page, fc =>
    if (fetch page).data.isEmpty then
      if continuesPaging (fetch page) then firstResume fetch fuel (page + 1) (fc + 1)
      else some (.finished (fc + 1))
    else
      some (.yielded (fetch page).data (fc + 1))

/-- A concrete well-formed normalized record, for counterexamples and
witnesses. -/
def sampleRecord : HistoricalPrice :=
  { created_at := .jstr "2024-01-01T10:00:00Z"
    commodity_name := .jstr "BRENT_CRUDE_USD"
    price := .jnum 75
    unit_of_measure := .jstr "barrel"
    type_name := .jstr "spot_price" }

/-- A concrete two-page backend whose first page is empty but reports
`has_next = true`, and whose second page holds one record and
terminates. -/
def emptyFirstPageFetch : Nat → HistoricalResponse := fun page =>
  if page = 1 then
    { success := true, data := [], meta := some ⟨1, 100, 1, 2, true, false⟩ }
  else
    { success := true, data := [sampleRecord], meta := some ⟨2, 100, 1, 2, false, true⟩ }

/-- A concrete well-formed raw record whose normalization is
`sampleRecord`. -/
def sampleJson : JVal :=
  .jobj [("created_at", .jstr "2024-01-01T10:00:00Z"),
         ("code", .jstr "BRENT_CRUDE_USD"),
         ("price", .jnum 75),
         ("unit", .jstr "barrel"),
         ("type", .jstr "spot_price")]

/-- Response shape 1: records nested under `data.prices`. -/
def shape1 (records : List JVal) : JVal :=
  .jobj [("data", .jobj [("prices", .jarr records)])]

/-- Response shape 2: records directly under `data`. -/
def shape2 (records : List JVal) : JVal :=
  .jobj [("data", .jarr records)]

/-- Response shape 3: a bare top-level array of records. -/
def shape3 (records : List JVal) : JVal :=
  .jarr records

/-- A page holding one record lacking both `created_at` and a second,
well-formed record. -/
def malformedPageResponse : JVal :=
  shape1 [.jobj [("price", .jnum 75)], sampleJson]

/-- The same page with only the well-formed record. -/
def goodPageResponse : JVal :=
  shape1 [sampleJson]

/-- A response with two well-formed records and no `meta` block. -/
def twoRecResponse : JVal :=
  shape2 [sampleJson, sampleJson]

/-- A concrete two-page backend: one record per page, `has_next` true
exactly on page 1. -/
def twoPageFetch : Nat → HistoricalResponse := fun page =>
  if page = 1 then
    { success := true, data := [sampleRecord], meta := some ⟨1, 1000, 2, 2, true, false⟩ }
  else
    { success := true, data := [sampleRecord], meta := some ⟨2, 1000, 2, 2, false, true⟩ }

/-- Reduction of `Except` bind on a success value. -/
@[simp]
theorem exceptOkBind {α β ε : Type} (a : α) (f : α → Except ε β) :
    (Except.ok a >>= f) = f a := rfl

/-- Reduction of `Except` bind on an error value. -/
@[simp]
theorem exceptErrorBind {α β ε : Type} (e : ε) (f : α → Except ε β) :
    ((Except.error e : Except ε α) >>= f) = Except.error e := rfl

/-- C2: `select_endpoint` returns the year endpoint when either bound is
absent; otherwise with `days = end - start` it returns the day endpoint
when `days ≤ 1` (negative days included, no error), the week endpoint for
`2 ≤ days ≤ 7`, the month endpoint for `8 ≤ days ≤ 30`, and the year
endpoint for `days > 30`. -/
theorem C2_select_endpoint (p : String → Option Int) (sd ed : Int) :
    (∀ e, get_optimal_endpoint p none e = .ok "/v1/prices/past_year")
  ∧ (∀ s, get_optimal_endpoint p s none = .ok "/v1/prices/past_year")
  ∧ (ed - sd ≤ 1 →
      get_optimal_endpoint p (some (.date sd)) (some (.date ed)) = .ok "/v1/prices/past_day")
  ∧ (2 ≤ ed - sd → ed - sd ≤ 7 →
      get_optimal_endpoint p (some (.date sd)) (some (.date ed)) = .ok "/v1/prices/past_week")
  ∧ (8 ≤ ed - sd → ed - sd ≤ 30 →
      get_optimal_endpoint p (some (.date sd)) (some (.date ed)) = .ok "/v1/prices/past_month")
  ∧ (30 < ed - sd →
      get_optimal_endpoint p (some (.date sd)) (some (.date ed)) = .ok "/v1/prices/past_year") := by
  refine ⟨fun e => by cases e <;> rfl, fun s => by cases s <;> rfl, ?_, ?_, ?_, ?_⟩
  · intro h1
    simp only [get_optimal_endpoint, parse_date, truthyOpt, Bool.and_self, if_true,
      exceptOkBind]
    rw [if_pos (by omega)]
    rfl
  · intro h2 h7
    simp only [get_optimal_endpoint, parse_date, truthyOpt, Bool.and_self, if_true,
      exceptOkBind]
    rw [if_neg (by omega), if_pos (by omega)]
    rfl
  · intro h8 h30
    simp only [get_optimal_endpoint, parse_date, truthyOpt, Bool.and_self, if_true,
      exceptOkBind]
    rw [if_neg (by omega), if_neg (by omega), if_pos (by omega)]
    rfl
  · intro h30
    simp only [get_optimal_endpoint, parse_date, truthyOpt, Bool.and_self, if_true,
      exceptOkBind]
    rw [if_neg (by omega), if_neg (by omega), if_neg (by omega)]
    rfl

/-- Witness for C2: a reversed range (negative day count) still selects
the day endpoint, with no error. -/
theorem C2_select_endpoint_witness :
    get_optimal_endpoint (fun _ => none) (some (.date 5)) (some (.date 4))
      = .ok "/v1/prices/past_day" :=
  (C2_select_endpoint (fun _ => none) 5 4).2.2.1 (by decide)

/-- C3: `compute_timeout` returns the override unchanged whenever it is
present; otherwise 120 when either bound is absent, 30 when
`days ≤ 7`, 60 when `8 ≤ days ≤ 30` and 120 when `days > 30`. -/
theorem C3_calculate_timeout (p : String → Option Int) (sd ed : Int) :
    (∀ s e (t : Rat), calculate_timeout p s e (some t) = .ok t)
  ∧ (∀ e, calculate_timeout p none e none = .ok 120)
  ∧ (∀ s, calculate_timeout p s none none = .ok 120)
  ∧ (ed - sd ≤ 7 →
      calculate_timeout p (some (.date sd)) (some (.date ed)) none = .ok 30)
  ∧ (8 ≤ ed - sd → ed - sd ≤ 30 →
      calculate_timeout p (some (.date sd)) (some (.date ed)) none = .ok 60)
  ∧ (30 < ed - sd →
      calculate_timeout p (some (.date sd)) (some (.date ed)) none = .ok 120) := by
  refine ⟨fun s e t => rfl, fun e => by cases e <;> rfl, fun s => by cases s <;> rfl, ?_, ?_, ?_⟩
  · intro h7
    simp only [calculate_timeout, parse_date, truthyOpt, Bool.and_self, if_true,
      exceptOkBind]
    rw [if_pos (by omega)]
    rfl
  · intro h8 h30
    simp only [calculate_timeout, parse_date, truthyOpt, Bool.and_self, if_true,
      exceptOkBind]
    rw [if_neg (by omega), if_pos (by omega)]
    rfl
  · intro h30
    simp only [calculate_timeout, parse_date, truthyOpt, Bool.and_self, if_true,
      exceptOkBind]
    rw [if_neg (by omega), if_neg (by omega)]
    rfl

/-- Witness for C3: a 7-day range yields the 30-second tier. -/
theorem C3_calculate_timeout_witness :
    calculate_timeout (fun _ => none) (some (.date 0)) (some (.date 7)) none = .ok 30 :=
  (C3_calculate_timeout (fun _ => none) 0 7).2.2.2.1 (by decide)

/-- C9: a raw record normalized into a `HistoricalPrice` gets
`unit == "barrel"` when the `unit` field is missing and
`type == "spot_price"` when the `type` field is missing; explicit values
are kept. -/
theorem C9_record_defaults (fields : List (String × JVal)) (rec : HistoricalPrice)
    (h : mapRecord fields = some rec) :
    (lookupField fields "unit" = none → rec.unit_of_measure = .jstr "barrel")
  ∧ (∀ v, lookupField fields "unit" = some v → rec.unit_of_measure = v)
  ∧ (lookupField fields "type" = none → rec.type_name = .jstr "spot_price")
  ∧ (∀ v, lookupField fields "type" = some v → rec.type_name = v) := by
  unfold mapRecord mkHistoricalPrice at h
  split at h
  · exact absurd h (by simp)
  · injection h with h
    subst h
    refine ⟨?_, ?_, ?_, ?_⟩
    · intro hu
      simp [pyDictGetD, hu]
    · intro v hu
      simp [pyDictGetD, hu]
    · intro ht
      simp [pyDictGetD, ht]
    · intro v ht
      simp [pyDictGetD, ht]

/-- Witness for C9: a record carrying only `created_at` and `price`
normalizes with the two defaults filled in. -/
theorem C9_record_defaults_witness :
    HistoricalPrice.unit_of_measure
        ⟨.jstr "t", .jnull, .jnum 1, .jstr "barrel", .jstr "spot_price"⟩ = .jstr "barrel"
  ∧ HistoricalPrice.type_name
        ⟨.jstr "t", .jnull, .jnum 1, .jstr "barrel", .jstr "spot_price"⟩ = .jstr "spot_price" := by
  have h := C9_record_defaults [("created_at", .jstr "t"), ("price", .jnum 1)]
    ⟨.jstr "t", .jnull, .jnum 1, .jstr "barrel", .jstr "spot_price"⟩ (by simp [mapRecord,
      mkHistoricalPrice, pyDictGet, pyDictGetD, lookupField, JVal.isNull])
  exact ⟨h.1 (by simp [lookupField]), h.2.2.1 (by simp [lookupField])⟩

/-- C1 (code bug): a page holding a malformed record (missing the
required `created_at` timestamp) together with a well-formed record is
not normalized into the well-formed record alone: the record
construction error aborts the whole page, while the same page without
the malformed record succeeds. -/
theorem C1_malformed_record_aborts_page :
    getResp malformedPageResponse 1 100
      = .error "ValidationError: created_at and price are required"
  ∧ getResp goodPageResponse 1 100
      = .ok ⟨true, [sampleRecord], some (synthMeta 1 100 1)⟩ := by
  constructor
  · rfl
  · rfl

/-- C4 counterexample: a single-page fetch given the unparseable date
string "not-a-date" as start bound, with the end bound absent, raises no
error at all: the request is assembled (the garbage value is forwarded as
a query parameter) and the transport is invoked, the fetch completing
successfully. -/
theorem C4_counterexample :
    get_request (fun _ => none) (fun _ => "") (some (.str "not-a-date")) none 1 100 none
      = .ok ⟨"/v1/prices/past_year", 1, 100, some "not-a-date", none, 120⟩
  ∧ HistoricalResource.get (fun _ => none) (fun _ => "")
      (fun _ => .jobj [("error", .jstr "bad date")])
      (some (.str "not-a-date")) none 1 100 none
      = .ok ⟨true, [], some (synthMeta 1 100 0)⟩ := by
  constructor
  · rfl
  · rfl

/-- C4 (amended): when BOTH date bounds are supplied (as non-empty
strings) and one of them is unparseable, the fetch fails fast with an
error naming the offending value, and the transport is never invoked (the
result is the same error for every transport): an unparseable start bound
yields the error naming the start value, and a parseable start with an
unparseable end bound yields the error naming the end value. -/
theorem C4_fail_fast_both_bounds (p : String → Option Int) (fmt : Int → String)
    (ss es : String) (page per_page : Int) (t : Option Rat)
    (hs : ss ≠ "") (he : es ≠ "") :
    (p ss = none →
      get_request p fmt (some (.str ss)) (some (.str es)) page per_page t
        = .error ("Invalid isoformat string: " ++ ss)
      ∧ ∀ transport,
          HistoricalResource.get p fmt transport (some (.str ss)) (some (.str es))
            page per_page t
          = .error ("Invalid isoformat string: " ++ ss))
  ∧ (∀ d : Int, p ss = some d → p es = none →
      get_request p fmt (some (.str ss)) (some (.str es)) page per_page t
        = .error ("Invalid isoformat string: " ++ es)
      ∧ ∀ transport,
          HistoricalResource.get p fmt transport (some (.str ss)) (some (.str es))
            page per_page t
          = .error ("Invalid isoformat string: " ++ es)) := by
  have hss : (ss == "") = false := by simp [hs]
  have hes : (es == "") = false := by simp [he]
  constructor
  · intro hp
    have hreq : get_request p fmt (some (.str ss)) (some (.str es)) page per_page t
        = .error ("Invalid isoformat string: " ++ ss) := by
      simp only [get_request, get_optimal_endpoint, calculate_timeout, parse_date, truthyOpt, hp,
        hss, hes, Bool.not_false, Bool.and_self, if_true, exceptOkBind, exceptErrorBind]
    refine ⟨hreq, fun transport => ?_⟩
    simp only [HistoricalResource.get, hreq, exceptErrorBind]
  · intro d hp hpe
    have hreq : get_request p fmt (some (.str ss)) (some (.str es)) page per_page t
        = .error ("Invalid isoformat string: " ++ es) := by
      simp only [get_request, get_optimal_endpoint, calculate_timeout, parse_date, truthyOpt, hp,
        hpe, hss, hes, Bool.not_false, Bool.and_self, if_true, exceptOkBind, exceptErrorBind]
    refine ⟨hreq, fun transport => ?_⟩
    simp only [HistoricalResource.get, hreq, exceptErrorBind]

/-- Witness for C4: with both bounds present, an unparseable start bound
fails fast naming the start value, and a parseable start with an
unparseable end bound fails fast naming the end value. -/
theorem C4_fail_fast_witness :
    get_request (fun _ => none) (fun _ => "") (some (.str "garbage"))
        (some (.str "2024-01-01")) 1 100 none
      = .error ("Invalid isoformat string: " ++ "garbage")
  ∧ get_request (fun x => if x == "2024-01-01" then some 0 else none) (fun _ => "")
        (some (.str "2024-01-01")) (some (.str "garbage")) 1 100 none
      = .error ("Invalid isoformat string: " ++ "garbage") := by
  constructor
  · exact ((C4_fail_fast_both_bounds (fun _ => none) (fun _ => "") "garbage" "2024-01-01"
      1 100 none (by decide) (by decide)).1 rfl).1
  · exact ((C4_fail_fast_both_bounds (fun x => if x == "2024-01-01" then some 0 else none)
      (fun _ => "") "2024-01-01" "garbage" 1 100 none (by decide) (by decide)).2 0 rfl rfl).1

/-- C7: when the raw response carries no `meta` block, a successful
single-page fetch synthesizes metadata with
`has_next = (number of returned records == requested per_page)` and
`has_prev = (page > 1)`. -/
theorem C7_synth_meta (response : JVal) (page per_page : Int) (r : HistoricalResponse)
    (hm : pyContains response "meta" = .ok false)
    (h : getResp response page per_page = .ok r) :
    r.meta = some (synthMeta page per_page r.data.length)
  ∧ (synthMeta page per_page r.data.length).has_next
      = decide ((r.data.length : Int) = per_page)
  ∧ (synthMeta page per_page r.data.length).has_prev = decide (page > 1) := by
  unfold getResp at h
  cases hpd : extractPricesData response with
  | error e =>
    rw [hpd] at h
    simp at h
  | ok pd =>
    rw [hpd] at h
    simp only [exceptOkBind] at h
    cases hnp : normalizePrices pd with
    | error e =>
      rw [hnp] at h
      simp at h
    | ok prices =>
      rw [hnp] at h
      simp only [exceptOkBind] at h
      rw [hm] at h
      simp only [exceptOkBind, Bool.false_eq_true, if_false] at h
      injection h with h
      subst h
      exact ⟨rfl, rfl, rfl⟩

/-- Witness for C7: a meta-less response with two records fetched with
`per_page = 2` infers `has_next` true; the same `synthMeta` evaluation
shows the boundary behavior concretely. -/
theorem C7_synth_meta_witness :
    (HistoricalResponse.mk true [sampleRecord, sampleRecord] (some (synthMeta 1 2 2))).meta
      = some (synthMeta 1 2 2)
  ∧ (synthMeta 1 2 2).has_next = decide ((2 : Int) = 2)
  ∧ (synthMeta 1 2 2).has_prev = decide ((1 : Int) > 1) :=
  C7_synth_meta twoRecResponse 1 2
    ⟨true, [sampleRecord, sampleRecord], some (synthMeta 1 2 2)⟩ rfl rfl

/-- A list whose elements are all dicts contains no string under Python
list membership. -/
theorem anyIsStrVal_eq_false (rs : List JVal) (key : String) (h : ∀ r ∈ rs, r.isObj = true) :
    (rs.any fun v => v.isStrVal key) = false := by
  induction rs with
  | nil => rfl
  | cons a t ih =>
    simp only [List.any_cons, Bool.or_eq_false_iff]
    refine ⟨?_, ih fun r hr => h r (by simp [hr])⟩
    have ha := h a (by simp)
    cases a <;> simp_all [JVal.isObj, JVal.isStrVal]

/-- Key lookup in a dict fails exactly when Python key membership is
false. -/
theorem lookupField_eq_none_iff (fields : List (String × JVal)) (key : String) :
    lookupField fields key = none ↔ (fields.any fun kv => kv.1 == key) = false := by
  induction fields with
  | nil => simp [lookupField]
  | cons kv rest ih =>
    obtain ⟨k, v⟩ := kv
    cases hk : k == key <;> simp [lookupField, List.any_cons, hk, ih]

/-- C8 (amended): normalizing a response in each of the three supported
shapes holding the same raw records produces identical results
(shape-invariance); a top-level object with no `meta` block whose shape
is none of the supported ones — no `data` key, or a `data` value that is
neither a list nor an object carrying a `prices` key — yields an empty
record list with success still reported; and a non-container top-level
value (number, boolean or null) raises a `TypeError` instead. -/
theorem C8_shape_invariance :
    (∀ (records : List JVal) (page per_page : Int), (∀ r ∈ records, r.isObj = true) →
       getResp (shape1 records) page per_page = getResp (shape3 records) page per_page
     ∧ getResp (shape2 records) page per_page = getResp (shape3 records) page per_page)
  ∧ (∀ (fields : List (String × JVal)) (page per_page : Int),
       (fields.any fun kv => kv.1 == "meta") = false →
       (match lookupField fields "data" with
        | none => True
        | some (.jobj d) => (d.any fun kv => kv.1 == "prices") = false
        | some (.jarr _) => False
        | some _ => True) →
       getResp (.jobj fields) page per_page = .ok ⟨true, [], some (synthMeta page per_page 0)⟩)
  ∧ (∀ (page per_page : Int) (q : Rat) (b : Bool),
       getResp (.jnum q) page per_page = .error "TypeError: argument is not iterable"
     ∧ getResp (.jbool b) page per_page = .error "TypeError: argument is not iterable"
     ∧ getResp .jnull page per_page = .error "TypeError: argument is not iterable") := by
  refine ⟨?_, ?_, fun page per_page q b => ⟨rfl, rfl, rfl⟩⟩
  · intro records page per_page h
    have hd : (records.any fun v => v.isStrVal "data") = false :=
      anyIsStrVal_eq_false records "data" h
    have hm : (records.any fun v => v.isStrVal "meta") = false :=
      anyIsStrVal_eq_false records "meta" h
    constructor <;>
      simp [getResp, extractPricesData, pyContains, pySubscript, lookupField,
        shape1, shape2, shape3, hd, hm]
  · intro fields page per_page hm hshape
    cases hd : lookupField fields "data" with
    | none =>
      have hda : (fields.any fun kv => kv.1 == "data") = false :=
        (lookupField_eq_none_iff fields "data").mp hd
      simp [getResp, extractPricesData, pyContains, pySubscript, normalizePrices, pyIterate,
        hda, hm, List.foldlM]
      rfl
    | some v =>
      have hda : (fields.any fun kv => kv.1 == "data") = true := by
        cases hany : (fields.any fun kv => kv.1 == "data") with
        | true => rfl
        | false =>
          rw [(lookupField_eq_none_iff fields "data").mpr hany] at hd
          exact absurd hd (by simp)
      rw [hd] at hshape
      cases v with
      | jobj d =>
        simp [getResp, extractPricesData, pyContains, pySubscript, normalizePrices, pyIterate,
          hd, hda, hshape, hm, List.foldlM]
        rfl
      | jarr xs => exact absurd hshape (by simp)
      | jnull =>
        simp [getResp, extractPricesData, pyContains, pySubscript, normalizePrices, pyIterate,
          hd, hda, hm, List.foldlM]
        rfl
      | jbool b =>
        simp [getResp, extractPricesData, pyContains, pySubscript, normalizePrices, pyIterate,
          hd, hda, hm, List.foldlM]
        rfl
      | jnum q =>
        simp [getResp, extractPricesData, pyContains, pySubscript, normalizePrices, pyIterate,
          hd, hda, hm, List.foldlM]
        rfl
      | jstr str =>
        simp [getResp, extractPricesData, pyContains, pySubscript, normalizePrices, pyIterate,
          hd, hda, hm, List.foldlM]
        rfl

/-- C8 counterexample: a top-level shape outside the three supported ones
need not fail soft: a response whose `meta` value is not an object raises
(`AttributeError`) instead of reporting success with zero records. -/
theorem C8_counterexample :
    getResp (.jobj [("meta", .jnum 5)]) 1 100
      = .error "AttributeError: object has no attribute get" := by
  rfl

/-- Witness for C8: a concrete well-formed record list is normalized
identically under shape 1 and shape 3, and the unsupported-shape object
with a numeric `data` value fails soft with success and zero records. -/
theorem C8_shape_invariance_witness :
    getResp (shape1 [sampleJson]) 1 100 = getResp (shape3 [sampleJson]) 1 100
  ∧ getResp (.jobj [("data", .jnum 42)]) 1 100 = .ok ⟨true, [], some (synthMeta 1 100 0)⟩ := by
  constructor
  · exact (C8_shape_invariance.1 [sampleJson] 1 100 (by intro r hr; simp at hr; subst hr; rfl)).1
  · exact C8_shape_invariance.2.1 [("data", .jnum 42)] 1 100 rfl trivial

/-- Run lemma for the `get_all` loop: if paging continues exactly below
page `N`, the loop started at page `s` (with `s + k = N`) visits pages
`s..N` in order and accumulates their records. -/
theorem getAllAux_run (fetch : Nat → HistoricalResponse) (N : Nat) :
    ∀ (fuel k s : Nat), s + k = N →
    (∀ q, s ≤ q → q ≤ N → continuesPaging (fetch q) = decide (q < N)) →
    k < fuel →
    getAllAux fetch fuel s =
      some ((((List.range' s (k + 1)).map fun q => (fetch q).data).flatten),
        List.range' s (k + 1)) := by
  intro fuel
  induction fuel with
  | zero =>
    intro k s _ _ hf
    exact absurd hf (Nat.not_lt_zero k)
  | succ fuel ih =>
    intro k s hsk hcont hf
    have hcs : continuesPaging (fetch s) = decide (s < N) := hcont s le_rfl (by omega)
    cases k with
    | zero =>
      have hs : s = N := by omega
      subst hs
      unfold getAllAux
      rw [hcs]
      simp [List.range'_succ]
    | succ k' =>
      have hsN : s < N := by omega
      unfold getAllAux
      rw [hcs, ih k' (s + 1) (by omega) (fun q hq1 hq2 => hcont q (by omega) hq2) (by omega)]
      simp [hsN, List.range'_succ]

/-- C5: on a backend with `N` total pages (`has_next` true on pages
`1..N-1`, false on page `N`), `get_all` starts at page 1, fetches pages
in increasing order (`[1, ..., N]`), returns the concatenation of all `N`
pages' records in page order, and performs exactly `N` fetch calls. -/
theorem C5_get_all_pages (fetch : Nat → HistoricalResponse) (N : Nat) (hN : 1 ≤ N)
    (hcont : ∀ q, 1 ≤ q → q ≤ N → continuesPaging (fetch q) = decide (q < N))
    (fuel : Nat) (hfuel : N ≤ fuel) :
    getAllAux fetch fuel 1 =
      some ((((List.range' 1 N).map fun q => (fetch q).data).flatten), List.range' 1 N)
  ∧ (List.range' 1 N).length = N := by
  have h := getAllAux_run fetch N fuel (N - 1) 1 (by omega) hcont (by omega)
  rw [show N - 1 + 1 = N from by omega] at h
  exact ⟨h, List.length_range' ..⟩

/-- Witness for C5: a concrete two-page backend is drained in exactly two
fetches. -/
theorem C5_get_all_pages_witness :
    getAllAux twoPageFetch 2 1 =
      some ((((List.range' 1 2).map fun q => (twoPageFetch q).data).flatten), List.range' 1 2)
  ∧ (List.range' 1 2).length = 2 :=
  C5_get_all_pages twoPageFetch 2 (by decide)
    (by intro q h1 h2; interval_cases q <;> rfl) 2 (by decide)

/-- C6 counterexample: on a backend whose first page is empty with
`has_next` true, the consumer of the first yielded page has triggered two
fetch calls, not one. -/
theorem C6_counterexample :
    firstResume emptyFirstPageFetch 3 1 0 = some (.yielded [sampleRecord] 2)
  ∧ 2 ≠ 1 :=
  ⟨rfl, by decide⟩

/-- C6 (amended): `iter_pages` fetches only on demand; when the first
page's record list is non-empty, a consumer that stops after the first
yielded page has triggered exactly one fetch call, and no subsequent page
is ever fetched. -/
theorem C6_first_yield_one_fetch (fetch : Nat → HistoricalResponse) (fuel : Nat)
    (hfuel : 1 ≤ fuel) (hne : (fetch 1).data ≠ []) :
    firstResume fetch fuel 1 0 = some (.yielded (fetch 1).data 1) := by
  cases fuel with
  | zero => omega
  | succ n =>
    unfold firstResume
    have h : (fetch 1).data.isEmpty = false := by
      cases hd : (fetch 1).data with
      | nil => exact absurd hd hne
      | cons a t => rfl
    rw [h]
    simp

/-- Witness for C6: on the concrete two-page backend (non-empty first
page) the first yield costs exactly one fetch. -/
theorem C6_first_yield_one_fetch_witness :
    firstResume twoPageFetch 1 1 0 = some (.yielded (twoPageFetch 1).data 1) :=
  C6_first_yield_one_fetch twoPageFetch 1 (by decide) (by simp [twoPageFetch])

/-- C10: `iter_pages` yields only non-empty record batches (an empty page
is skipped while the loop still advances when `has_next` is true), so the
number of yielded batches is at most — and can be strictly less than —
the number of fetch calls performed. -/
theorem C10_iter_pages_skips_empty :
    (∀ (fetch : Nat → HistoricalResponse) (fuel page : Nat)
       (batches : List (List HistoricalPrice)) (n : Nat),
       iterPagesAux fetch fuel page = some (batches, n) →
       (∀ b ∈ batches, b ≠ []) ∧ batches.length ≤ n)
  ∧ (iterPagesAux emptyFirstPageFetch 3 1 = some ([[sampleRecord]], 2)
     ∧ ([[sampleRecord]] : List (List HistoricalPrice)).length < 2) := by
  constructor
  · intro fetch fuel
    induction fuel with
    | zero =>
      intro page batches n h
      simp [iterPagesAux] at h
    | succ fuel ih =>
      intro page batches n h
      unfold iterPagesAux at h
      by_cases hc : continuesPaging (fetch page) = true
      · rw [if_pos hc] at h
        cases hrec : iterPagesAux fetch fuel (page + 1) with
        | none =>
          rw [hrec] at h
          simp at h
        | some pr =>
          obtain ⟨bs, m⟩ := pr
          rw [hrec] at h
          have ihm := ih (page + 1) bs m hrec
          rw [Option.some_inj, Prod.mk.injEq] at h
          obtain ⟨hb, hn⟩ := h
          subst hb
          subst hn
          by_cases he : (fetch page).data.isEmpty = true
          · rw [if_pos he]
            exact ⟨ihm.1, Nat.le_succ_of_le ihm.2⟩
          · rw [if_neg he]
            have hd : (fetch page).data ≠ [] := by
              intro hnil
              rw [hnil] at he
              exact he rfl
            refine ⟨?_, ?_⟩
            · intro b hbmem
              rcases List.mem_cons.mp hbmem with hbd | hbs
              · rw [hbd]; exact hd
              · exact ihm.1 b hbs
            · simp only [List.length_cons]
              omega
      · rw [if_neg hc] at h
        rw [Option.some_inj, Prod.mk.injEq] at h
        obtain ⟨hb, hn⟩ := h
        subst hb
        subst hn
        by_cases he : (fetch page).data.isEmpty = true
        · rw [if_pos he]
          exact ⟨by intro b hbmem; simp at hbmem, by simp⟩
        · rw [if_neg he]
          have hd : (fetch page).data ≠ [] := by
            intro hnil
            rw [hnil] at he
            exact he rfl
          refine ⟨?_, by simp⟩
          intro b hbmem
          rw [List.mem_singleton.mp hbmem]
          exact hd
  · exact ⟨rfl, by decide⟩

/-- Witness for C10: applying the invariant to the concrete run with an
empty first page. -/
theorem C10_iter_pages_skips_empty_witness :
    ([[sampleRecord]] : List (List HistoricalPrice)).length ≤ 2 :=
  (C10_iter_pages_skips_empty.1 emptyFirstPageFetch 3 1 [[sampleRecord]] 2 rfl).2
